import Mathlib

/-!
# Verification of the `linear_type` crate (src/src/lib.rs)

A shallow embedding of the `Linear<T, U>` wrapper generated by the `linear!`
macro, of its combinators, and of the drop-time Guard (`NoDrop`), together
with proofs settling the spec claims.

Modelling conventions:
* `Linear<T, U>` (lib.rs lines 56-61, instantiated at line 635) is a struct
  holding `ManuallyDrop<T>` and a `Linearity<U>`; the payload is the only
  runtime data, the tag `U` is a phantom type parameter.  We keep `U` as a
  phantom parameter of the Lean structure.
* Rust `Result<T, E>` is `Except E T` (`Ok` = `.ok`, `Err` = `.error`);
  Rust `Option<T>` is `Option T`.
* A Rust panic inside `unwrap_*` is modelled by an `Option` result
  (`none` = panic).
* The build-time configuration (`debug_assertions`, feature
  `drop_unchecked`, `cfg(test)`) is a `Config` record, and the conditional
  compilation of `impl Drop for NoDrop` (lib.rs lines 701-720) becomes a
  function from `Config` to the signal the destructor emits.
* Rust drop semantics: when a `Linear` value goes out of scope its fields
  are dropped; `ManuallyDrop<T>` drops nothing, and `Linearity<U>` drops its
  `NoDrop` field, which fires the Guard.  `core::mem::forget` (used by
  `into`, `destroy`) suppresses the destructor.  We model the end of life of
  the `Linearity` field by a `FieldEnd` mode (`dropRun` vs `forgotten`).
-/

/-- Build-time configuration: `debug_assertions` (on in debug builds),
the `drop_unchecked` cargo feature, and `cfg(test)`. -/
structure Config where
  debugAssertions : Bool
  dropUnchecked : Bool
  isTest : Bool
deriving DecidableEq

/-- A failure signal raised by the Guard: a recoverable panic carrying a
message, or a process abort. -/
inductive GuardSignal where
  | panicSignal (msg : String)
  | abortSignal
deriving DecidableEq

namespace NoDrop

/-- `impl Drop for NoDrop` exists iff `debug_assertions` are enabled or the
`drop_unchecked` feature is not enabled (lib.rs line 703:
`#[cfg(any(debug_assertions, not(feature = "drop_unchecked")))]`). -/
def dropImplemented (c : Config) : Bool :=
  c.debugAssertions || !c.dropUnchecked

/-- The panic message of the test-build destructor (lib.rs line 710); the
non-test debug build prints the same string before aborting (line 717). -/
def dropMessage : String := "linear type dropped"

/-- Effect of dropping a `NoDrop` value (lib.rs lines 703-720).
When the `Drop` impl is compiled in:
* under `cfg(test)` (lines 705-712): panic with `dropMessage` unless the
  thread is already panicking, in which case stay silent;
* otherwise (lines 713-719): abort the process unconditionally.
When the impl is compiled out, dropping does nothing. -/
def dropEffect (c : Config) (panicking : Bool) : Option GuardSignal :=
  if dropImplemented c then
    if c.isTest then
      if panicking then none else some (.panicSignal dropMessage)
    else
      some .abortSignal
  else
    none

end NoDrop

/-- How the `Linearity` field of a cell ends its life: its destructor runs
(the cell was dropped while live), or it was passed to `core::mem::forget`
(by `into` at lib.rs line 130 or `destroy` at line 150), which suppresses
the destructor. -/
inductive FieldEnd where
  | dropRun
  | forgotten
deriving DecidableEq

namespace Linearity

/-- Signals emitted when the `Linearity` field of one cell ends its life.
`Linearity<U>` (lib.rs lines 7-11) holds exactly one `NoDrop`, so a dropped
field emits whatever one `NoDrop` destructor emits and a forgotten field
emits nothing. -/
def endOfLife (m : FieldEnd) (c : Config) (panicking : Bool) :
    List GuardSignal :=
  match m with
  | .forgotten => []
  | .dropRun => (NoDrop.dropEffect c panicking).toList

/-- `impl PartialEq for Linearity` (lib.rs lines 13-17): always `true`. -/
def beq : Bool := true

/-- `impl Ord for Linearity` (lib.rs lines 27-31): always `Equal`. -/
def cmp : Ordering := .eq

end Linearity

/-- `UniqueType<F: Fn()>` (lib.rs line 658): a marker struct holding a
closure; only its type parameter matters. -/
structure UniqueType (F : Type) where
  closure : F

/-- The linear cell generated by `linear! { pub struct Linear<T, U>(T); }`
(lib.rs lines 56-61, 635-647): `ManuallyDrop<T>` payload plus a phantom
uniqueness tag `U`.  Only the payload is runtime data. -/
structure Linear (T : Type) (U : Type) where
  payload : T

namespace Linear

/-- `Linear::new` (lib.rs lines 84-89): wraps the value; the `UniqueType`
argument only fixes the tag type. -/
def new {T F : Type} (inner : T) (_u : UniqueType F) :
    Linear T (UniqueType F) :=
  ⟨inner⟩

/-- `into` (lib.rs lines 128-132): destructures the cell, forgets the
linearity and returns the inner value. -/
def into {T U : Type} (cell : Linear T U) : T :=
  cell.payload

/-- Signals emitted during `into`: the linearity is passed to
`core::mem::forget` (lib.rs line 130) so the `NoDrop` destructor never
runs. -/
def intoSignals {T U : Type} (_cell : Linear T U) (c : Config)
    (panicking : Bool) : List GuardSignal :=
  Linearity.endOfLife .forgotten c panicking

/-- `destroy` (lib.rs lines 145-151): drops the payload and forgets the
linearity; like `into`, it emits no Guard signal. -/
def destroySignals {T U : Type} (_cell : Linear T U) (c : Config)
    (panicking : Bool) : List GuardSignal :=
  Linearity.endOfLife .forgotten c panicking

/-- Signals emitted when a still-live cell is dropped: `ManuallyDrop<T>`
drops nothing, then the `Linearity` field's `NoDrop` destructor runs
(lib.rs lines 703-720). -/
def dropSignals {T U : Type} (_cell : Linear T U) (c : Config)
    (panicking : Bool) : List GuardSignal :=
  Linearity.endOfLife .dropRun c panicking

/-- `transpose` (lib.rs lines 168-173): wraps a value in a new cell whose
tag is the consumed cell's type `Self`. -/
def transpose {T U R : Type} (r : R) : Linear R (Linear T U) :=
  ⟨r⟩

/-- `map` (lib.rs lines 164-166): `Self::transpose(f(self.into()))`. -/
def map {T U R : Type} (cell : Linear T U) (f : T → R) :
    Linear R (Linear T U) :=
  transpose (f cell.into)

/-- `map_ok` (lib.rs lines 190-198): apply `f` to the `Ok` value, retain an
`Err` value.  Note `f` returns a whole `Result`. -/
def map_ok {T E U R : Type} (cell : Linear (Except E T) U)
    (f : T → Except E R) : Linear (Except E R) (Linear (Except E T) U) :=
  match cell.into with
  | .ok t => transpose (f t)
  | .error e => transpose (.error e)

/-- `map_err` (lib.rs lines 202-210): apply `f` to the `Err` value, retain
an `Ok` value. -/
def map_err {T E U R : Type} (cell : Linear (Except E T) U)
    (f : E → Except R T) : Linear (Except R T) (Linear (Except E T) U) :=
  match cell.into with
  | .ok t => transpose (.ok t)
  | .error e => transpose (f e)

/-- `unwrap_ok` (lib.rs lines 220-223): `transpose(self.into().unwrap())`;
panics (modelled `none`) when the value is an `Err`. -/
def unwrap_ok {T E U : Type} (cell : Linear (Except E T) U) :
    Option (Linear T (Linear (Except E T) U)) :=
  match cell.into with
  | .ok t => some (transpose t)
  | .error _ => none

/-- `unwrap_err` (lib.rs lines 232-234): `transpose(self.into().unwrap_err())`;
panics (modelled `none`) when the value is an `Ok`. -/
def unwrap_err {T E U : Type} (cell : Linear (Except E T) U) :
    Option (Linear E (Linear (Except E T) U)) :=
  match cell.into with
  | .ok _ => none
  | .error e => some (transpose e)

/-- `map_some` (lib.rs lines 251-259): apply `f` to the `Some` value, retain
a `None` value. -/
def map_some {T U R : Type} (cell : Linear (Option T) U)
    (f : T → Option R) : Linear (Option R) (Linear (Option T) U) :=
  match cell.into with
  | some t => transpose (f t)
  | none => transpose none

/-- `or_else` (lib.rs lines 272-280): apply `f` to the `None` value, retain
a `Some` value. -/
def or_else {T U : Type} (cell : Linear (Option T) U)
    (f : Unit → Option T) : Linear (Option T) (Linear (Option T) U) :=
  match cell.into with
  | some t => transpose (some t)
  | none => transpose (f ())

/-- `unwrap_some` (lib.rs lines 296-298): `transpose(self.into().unwrap())`;
panics (modelled `none`) when the value is `None`. -/
def unwrap_some {T U : Type} (cell : Linear (Option T) U) :
    Option (Linear T (Linear (Option T) U)) :=
  match cell.into with
  | some t => some (transpose t)
  | none => none

/-- Derived `PartialEq` on `Linear` (lib.rs line 56): field-wise
conjunction of payload equality and `Linearity` equality (which is
constantly `true`, lib.rs lines 13-17). -/
def beqLinear {T U : Type} [BEq T] (a b : Linear T U) : Bool :=
  (a.payload == b.payload) && Linearity.beq

/-- Derived `Ord` on `Linear` (lib.rs line 56): lexicographic comparison of
the payload and the `Linearity` field (which always compares `Equal`,
lib.rs lines 27-31). -/
def cmpLinear {T U : Type} (ord : T → T → Ordering) (a b : Linear T U) :
    Ordering :=
  (ord a.payload b.payload).then Linearity.cmp

/-- The `Hash` impl generated by `linear!` (lib.rs lines 63-68): hashes only
`self.0`, the payload. -/
def hashLinear {T U : Type} (hashT : T → UInt64) (a : Linear T U) : UInt64 :=
  hashT a.payload

end Linear

/-- Boolean test: `needle` starts the list `hay`. -/
def charsStartWith (needle hay : List Char) : Bool :=
  match needle, hay with
  | [], _ => true
  | _ :: _, [] => false
  | n :: ns, h :: hs => n == h && charsStartWith ns hs

/-- Boolean test: `needle` occurs as a contiguous run inside `hay`. -/
def charsHaveInfix (needle hay : List Char) : Bool :=
  match hay with
  | [] => needle.isEmpty
  | _ :: hs => charsStartWith needle hay || charsHaveInfix needle hs

/-- A failure message "names" a type when the type's Rust name occurs in
the message text. -/
def messageNamesType (msg tyName : String) : Bool :=
  charsHaveInfix tyName.toList msg.toList

/-- A sample tag, standing for one `unique!()` expansion (lib.rs
lines 663-667: `UniqueType(ManuallyDrop::new(|| ()))`). -/
def sampleTag : UniqueType (Unit → Unit) :=
  ⟨fun _ => ()⟩

/-- The checked test configuration: `cfg(test)` with `debug_assertions`
and without the `drop_unchecked` feature (the configuration the crate's
own test suite runs under). -/
def testConfig : Config :=
  { debugAssertions := true, dropUnchecked := false, isTest := true }

/-- A debug (non-test) build with the `drop_unchecked` feature enabled:
`debug_assertions` keep the `Drop` impl compiled in (lib.rs line 703). -/
def uncheckedDebugConfig : Config :=
  { debugAssertions := true, dropUnchecked := true, isTest := false }

/-- A checked release (non-test) build: no `debug_assertions`, feature
`drop_unchecked` off, not under `cfg(test)`. -/
def releaseCheckedConfig : Config :=
  { debugAssertions := false, dropUnchecked := false, isTest := false }

/-- Modelled from the spec: `splice` is listed in the combinator table
(§4.2: "split one cell into two, each individually subject to Guard and
exactly-once discipline — a pair of new cells") but has no implementation
under src/.  Consumes the cell, applies `f` to the payload, and wraps each
half of the pair in a fresh cell. -/
def Linear.splice {T U R S : Type} (cell : Linear T U) (f : T → R × S) :
    Linear R (Linear T U) × Linear S (Linear T U) :=
  (Linear.transpose (f cell.into).1, Linear.transpose (f cell.into).2)

/-- Modelled from the spec: `merge` is listed in the combinator table
(§4.2: "consume two live cells together — one new cell wrapping R") but has
no implementation under src/.  Consumes both cells and wraps `f` of the two
payloads. -/
def Linear.merge {T U T2 U2 R : Type} (c1 : Linear T U) (c2 : Linear T2 U2)
    (f : T → T2 → R) : Linear R (Linear T U × Linear T2 U2) :=
  ⟨f c1.into c2.into⟩

/-- The fragment of Rust's type grammar relevant to the uniqueness tag:
every `unique!()` expansion site produces a closure `|| ()` with a distinct
anonymous type (lib.rs lines 663-667), identified here by its site number;
`UniqueType<F>` (line 658) wraps such a closure type; a `linear!`-generated
struct applies a name to a payload type and a tag type. -/
inductive RustTy where
  | stringTy
  | closureAt (site : Nat)
  | uniqueType (f : RustTy)
  | linearCell (name : String) (payload : RustTy) (tag : RustTy)
deriving DecidableEq

/-- Rust's typing rule for the assignment `bar = foo;`: it type-checks
exactly when the type of the source equals the type of the target
(nominal type equality). -/
def assignmentAccepted (target source : RustTy) : Bool :=
  decide (target = source)

/-- The type of `foo` in tests/compile_fail/newtype.rs line 9:
`ReturnResponseMustUse<String, UniqueType<{closure at site 0}>>`. -/
def fooTy : RustTy :=
  .linearCell "ReturnResponseMustUse" .stringTy (.uniqueType (.closureAt 0))

/-- The type of `bar` in tests/compile_fail/newtype.rs line 10: the second
`unique!()` expansion yields a distinct closure type (site 1). -/
def barTy : RustTy :=
  .linearCell "ReturnResponseMustUse" .stringTy (.uniqueType (.closureAt 1))

/-!
## Claims
-/

/-- C1 counterexample: dropping a live cell (payload type `u32`) in the
checked test configuration raises exactly one Guard failure, but its
message is the fixed string "linear type dropped" (lib.rs line 710), which
does not name the payload type `u32`. -/
theorem c1_drop_message_lacks_type_name :
    (Linear.new (42 : Nat) sampleTag).dropSignals testConfig false
      = [GuardSignal.panicSignal NoDrop.dropMessage] ∧
    messageNamesType NoDrop.dropMessage "u32" = false := by
  constructor
  · rfl
  · decide

/-- C1 (amended): constructing a linear cell and dropping it without
calling `into()` or `destroy()` raises exactly one Guard failure in every
checked build (when the thread is not already panicking); in a test build
that failure is a panic carrying the fixed message "linear type dropped"
— the message does not name the wrapped payload's type. -/
theorem c1_drop_one_guard_failure (T U : Type) (cell : Linear T U)
    (c : Config) (h : NoDrop.dropImplemented c = true) :
    (cell.dropSignals c false).length = 1 ∧
    (c.isTest = true →
      cell.dropSignals c false = [GuardSignal.panicSignal NoDrop.dropMessage]) := by
  unfold Linear.dropSignals Linearity.endOfLife NoDrop.dropEffect
  rw [h]
  cases hc : c.isTest <;> simp [hc]

/-- Witness for C1's amended theorem at a concrete cell and the test
configuration. -/
theorem c1_drop_one_guard_failure_witness :
    NoDrop.dropImplemented testConfig = true ∧
    (((Linear.new (0 : Nat) sampleTag).dropSignals testConfig false).length = 1 ∧
     (testConfig.isTest = true →
       (Linear.new (0 : Nat) sampleTag).dropSignals testConfig false
         = [GuardSignal.panicSignal NoDrop.dropMessage])) :=
  ⟨by decide,
   c1_drop_one_guard_failure Nat (UniqueType (Unit → Unit))
     (Linear.new (0 : Nat) sampleTag) testConfig (by decide)⟩

/-- C2: wrapping any value `v` with `Linear::new(v, unique!())` and
immediately destructuring with `into()` returns exactly `v`, and the Guard
emits no signal (the linearity is forgotten at lib.rs line 130, so the
`NoDrop` destructor never runs) — in every configuration, panicking or
not. -/
theorem c2_into_returns_value_silently (T F : Type) (v : T)
    (u : UniqueType F) (c : Config) (p : Bool) :
    (Linear.new v u).into = v ∧ (Linear.new v u).intoSignals c p = [] :=
  ⟨rfl, rfl⟩

/-- C3 counterexample: in a debug build with the `drop_unchecked` feature
enabled, the `Drop` impl is still compiled in (lib.rs line 703 enables it
whenever `debug_assertions` hold), so dropping a live cell aborts — the
claim that the unchecked configuration disables detection "in any build"
is false. -/
theorem c3_unchecked_debug_still_detects :
    uncheckedDebugConfig.dropUnchecked = true ∧
    (Linear.new (0 : Nat) sampleTag).dropSignals uncheckedDebugConfig false
      = [GuardSignal.abortSignal] := by
  constructor
  · rfl
  · rfl

/-- C3 (amended): the `drop_unchecked` feature disables the Guard only in
builds without `debug_assertions`: there, dropping a live cell emits no
signal whatsoever. -/
theorem c3_unchecked_release_no_detection (T U : Type) (cell : Linear T U)
    (c : Config) (p : Bool) (h1 : c.dropUnchecked = true)
    (h2 : c.debugAssertions = false) :
    cell.dropSignals c p = [] := by
  unfold Linear.dropSignals Linearity.endOfLife NoDrop.dropEffect
    NoDrop.dropImplemented
  rw [h1, h2]
  rfl

/-- Witness for C3's amended theorem at a concrete cell and the unchecked
release configuration. -/
theorem c3_unchecked_release_no_detection_witness :
    Config.dropUnchecked
        { debugAssertions := false, dropUnchecked := true, isTest := false }
      = true ∧
    Config.debugAssertions
        { debugAssertions := false, dropUnchecked := true, isTest := false }
      = false ∧
    (Linear.new (0 : Nat) sampleTag).dropSignals
        { debugAssertions := false, dropUnchecked := true, isTest := false }
        false
      = [] :=
  ⟨rfl, rfl,
   c3_unchecked_release_no_detection Nat (UniqueType (Unit → Unit))
     (Linear.new (0 : Nat) sampleTag)
     { debugAssertions := false, dropUnchecked := true, isTest := false }
     false rfl rfl⟩

/-- C4 counterexample: in the checked release (non-test) configuration the
destructor aborts unconditionally (lib.rs lines 713-719 have no
`thread::panicking()` check), so dropping a second live cell while a
failure is already propagating does raise a second failure — the claim's
"in every checked configuration" is false. -/
theorem c4_release_guard_fires_while_panicking :
    NoDrop.dropImplemented releaseCheckedConfig = true ∧
    (Linear.new (0 : Nat) sampleTag).dropSignals releaseCheckedConfig true
      = [GuardSignal.abortSignal] := by
  constructor
  · rfl
  · rfl

/-- C4 (amended): in test builds (`cfg(test)`), dropping a live cell while
the thread is already panicking raises no second failure: the destructor
checks `std::thread::panicking()` (lib.rs line 709) and stays silent. -/
theorem c4_test_guard_silent_while_panicking (T U : Type)
    (cell : Linear T U) (c : Config) (h : c.isTest = true) :
    cell.dropSignals c true = [] := by
  unfold Linear.dropSignals Linearity.endOfLife NoDrop.dropEffect
  rw [h]
  cases NoDrop.dropImplemented c <;> rfl

/-- Witness for C4's amended theorem at a concrete cell and the test
configuration. -/
theorem c4_test_guard_silent_while_panicking_witness :
    testConfig.isTest = true ∧
    (Linear.new (0 : Nat) sampleTag).dropSignals testConfig true = [] :=
  ⟨rfl,
   c4_test_guard_silent_while_panicking Nat (UniqueType (Unit → Unit))
     (Linear.new (0 : Nat) sampleTag) testConfig rfl⟩

/-- C5: `map` consumes the cell and produces a new cell whose payload is
`f(v)`, so destructuring the result yields `f(v)`; concretely,
`wrap(5).map(|x| x.to_string()).into()` equals `"5"`. -/
theorem c5_map_applies_function (T F R : Type) (v : T) (u : UniqueType F)
    (f : T → R) :
    ((Linear.new v u).map f).into = f v ∧
    ((Linear.new (5 : Nat) sampleTag).map (fun x => toString x)).into = "5" :=
  ⟨rfl, rfl⟩

/-- C6: `map_ok` applies `f` only to the `Ok` branch and passes an `Err`
through unchanged, and `map_err` applies `g` only to the `Err` branch and
passes an `Ok` through unchanged; the pass-through results hold for every
`f` (resp. `g`), so the user function is not consulted on the other
branch. -/
theorem c6_map_ok_map_err_branch_routing (T E R S F : Type)
    (u1 u2 u3 u4 : UniqueType F) (x : T) (e : E) (f : T → Except E R)
    (g : E → Except S T) :
    ((Linear.new (Except.ok x) u1).map_ok f).payload = f x ∧
    ((Linear.new (Except.error e) u2).map_ok f).payload = Except.error e ∧
    ((Linear.new (Except.ok x) u3).map_err g).payload = Except.ok x ∧
    ((Linear.new (Except.error e) u4).map_err g).payload = g e :=
  ⟨rfl, rfl, rfl, rfl⟩

/-- C7: `unwrap_ok` panics (modelled `none`) exactly on an `Err` payload
and otherwise yields a cell holding the `Ok` value; `unwrap_err` panics
exactly on an `Ok` payload and otherwise yields a cell holding the `Err`
value; `unwrap_some` panics exactly on `None` and otherwise yields a cell
holding the `Some` value. -/
theorem c7_unwrap_family (T E F : Type) (u1 u2 u3 u4 u5 u6 : UniqueType F)
    (x : T) (e : E) :
    (Linear.new (Except.error e : Except E T) u1).unwrap_ok = none ∧
    (Linear.new (Except.ok x : Except E T) u2).unwrap_ok
      = some (Linear.transpose x) ∧
    (Linear.new (Except.ok x : Except E T) u3).unwrap_err = none ∧
    (Linear.new (Except.error e : Except E T) u4).unwrap_err
      = some (Linear.transpose e) ∧
    (Linear.new (none : Option T) u5).unwrap_some = none ∧
    (Linear.new (some x : Option T) u6).unwrap_some
      = some (Linear.transpose x) :=
  ⟨rfl, rfl, rfl, rfl, rfl, rfl⟩

/-- C8: for `f` splitting `T` into a pair and `g` merging the pair back,
if the split/merge is lossless at `v` then splicing `wrap(v)` with `f` and
merging the two resulting cells with `g` reconstructs `v`.
(`splice` and `merge` are modelled from the spec; they have no
implementation under src/.) -/
theorem c8_splice_merge_roundtrip (T F R S : Type) (v : T)
    (u : UniqueType F) (f : T → R × S) (g : R → S → T)
    (h : g (f v).1 (f v).2 = v) :
    ((((Linear.new v u).splice f).1).merge (((Linear.new v u).splice f).2)
        g).into = v :=
  h

/-- Witness for C8 at the spec's concrete example: `"foobar"` split at 3
into `("foo", "bar")` and merged back by concatenation. -/
theorem c8_splice_merge_roundtrip_witness :
    ((fun s : String => (s.take 3, s.drop 3)) "foobar").1
        ++ ((fun s : String => (s.take 3, s.drop 3)) "foobar").2 = "foobar" ∧
    ((((Linear.new "foobar" sampleTag).splice
          (fun s => (s.take 3, s.drop 3))).1).merge
        (((Linear.new "foobar" sampleTag).splice
          (fun s => (s.take 3, s.drop 3))).2)
        (fun a b => a ++ b)).into = "foobar" :=
  ⟨by decide,
   c8_splice_merge_roundtrip String (Unit → Unit) String String "foobar"
     sampleTag (fun s => (s.take 3, s.drop 3)) (fun a b => a ++ b)
     (by decide)⟩

/-- C9: two independently constructed cells of the same payload type carry
tag types from distinct `unique!()` expansion sites, so the assignment of
one to the other fails Rust's nominal type equality check; in particular
`bar = foo` in tests/compile_fail/newtype.rs is rejected. -/
theorem c9_uniqueness_assignment_rejected (name : String)
    (payload : RustTy) (s1 s2 : Nat) (h : s1 ≠ s2) :
    assignmentAccepted
        (.linearCell name payload (.uniqueType (.closureAt s1)))
        (.linearCell name payload (.uniqueType (.closureAt s2)))
      = false ∧
    assignmentAccepted barTy fooTy = false := by
  constructor
  · simp only [assignmentAccepted, decide_eq_false_iff_not]
    intro hEq
    simp only [RustTy.linearCell.injEq, RustTy.uniqueType.injEq,
      RustTy.closureAt.injEq, true_and] at hEq
    exact h hEq
  · decide

/-- Witness for C9 at the sites of the two `unique!()` expansions in
tests/compile_fail/newtype.rs. -/
theorem c9_uniqueness_assignment_rejected_witness :
    (1 : Nat) ≠ 0 ∧
    (assignmentAccepted
        (.linearCell "ReturnResponseMustUse" .stringTy
          (.uniqueType (.closureAt 1)))
        (.linearCell "ReturnResponseMustUse" .stringTy
          (.uniqueType (.closureAt 0)))
      = false ∧
     assignmentAccepted barTy fooTy = false) :=
  ⟨by decide,
   c9_uniqueness_assignment_rejected "ReturnResponseMustUse" .stringTy 1 0
     (by decide)⟩

/-- C10: the derived comparisons and the generated `Hash` impl depend only
on the payload: the `Linearity` marker always compares equal and is
excluded from the hash, so cell equality is payload equality, cell
comparison is payload comparison, and cells hash identically exactly when
their payloads do. -/
theorem c10_eq_ord_hash_payload_only (T U : Type) [BEq T]
    (ord : T → T → Ordering) (hashT : T → UInt64) (a b : Linear T U) :
    Linearity.beq = true ∧
    Linearity.cmp = Ordering.eq ∧
    Linear.beqLinear a b = (a.payload == b.payload) ∧
    Linear.cmpLinear ord a b = ord a.payload b.payload ∧
    (Linear.hashLinear hashT a = Linear.hashLinear hashT b
      ↔ hashT a.payload = hashT b.payload) := by
  refine ⟨rfl, rfl, ?_, ?_, Iff.rfl⟩
  · simp [Linear.beqLinear, Linearity.beq]
  · unfold Linear.cmpLinear Linearity.cmp
    cases ord a.payload b.payload <;> rfl
